import Mathlib

/-!
Verification development for the bank-statement extraction pipeline.

Shallow embedding of the core of the repository:
  * `verify_pdf_extraction_is_correct` (src/verify_pdf_extraction.py),
  * `parse_individual_transactions` and `parse_date` (src/import_detailed.py),
  * the brought-forward opening-balance scans and `process_bank_statement`
    (src/pdf_reader_ocr.py).

Python floats are modelled as exact rationals; all monetary arithmetic in
the source is plain addition, subtraction and absolute value, which the
rational model reproduces exactly.  Python strings are modelled as Lean
strings, with the string methods used by the source (strip, split, join,
replace, slicing) embedded as structurally recursive functions on the
underlying character lists, so that every definition evaluates inside
the kernel.  Python while-loops whose index strictly increases each
iteration are modelled by structurally recursive functions on an
explicit fuel argument, with fuel instantiated so that it can never run
out before the loop guard fails (the loop index starts at 0 and strictly
increases, so `lines.length` iterations always suffice).  Digit classes
of the regexes and the int conversion are modelled over ASCII digits;
the Unicode digits Python additionally accepts do not occur in this
pipeline.
-/

set_option maxRecDepth 40000

/- The Batteries arithmetic on `Rat` is marked irreducible, which blocks
`decide` on concrete rational computations; restore the default
reducibility inside this file so that closed facts about the embedded
functions can be settled by evaluation. -/
attribute [local semireducible] Rat.add Rat.sub Rat.mul

deriving instance DecidableEq for Except

namespace BankStatement

/-- Transaction record as built by `parse_individual_transactions`
(src/import_detailed.py lines 93-100): a Python dict with keys
date, description, deposit, withdrawal, balance, page. -/
structure Txn where
  date : String
  description : String
  deposit : ℚ
  withdrawal : ℚ
  balance : ℚ
  page : Nat
deriving DecidableEq, Repr

instance : Inhabited Txn := ⟨⟨"", "", 0, 0, 0, 0⟩⟩

/-- Summary record consumed by the verifier (src/verify_pdf_extraction.py):
a dict with starting_balance, total_deposits, total_withdrawals,
final_balance. -/
structure Summary where
  starting_balance : ℚ
  total_deposits : ℚ
  total_withdrawals : ℚ
  final_balance : ℚ
deriving DecidableEq, Repr

/-- Verification results dict built at src/verify_pdf_extraction.py
lines 46-54. -/
structure VerificationResults where
  balance_diff : ℚ
  deposit_diff : ℚ
  withdrawal_diff : ℚ
  calc_deposits : ℚ
  calc_withdrawals : ℚ
  calc_final : ℚ
  passed : Bool
deriving DecidableEq, Repr

/-- Payload of the PDFExtractionVerificationError raised at
src/verify_pdf_extraction.py lines 56-63: the error message interpolates
the three diffs and, for each of the three comparisons, the expected
(summary) figure and the calculated figure. -/
structure PDFExtractionVerificationError where
  balance_diff : ℚ
  deposit_diff : ℚ
  withdrawal_diff : ℚ
  expected_final : ℚ
  calculated_final : ℚ
  expected_deposits : ℚ
  calculated_deposits : ℚ
  expected_withdrawals : ℚ
  calculated_withdrawals : ℚ
deriving DecidableEq, Repr

/-- Embedding of src/verify_pdf_extraction.py lines 30-54: the computed
totals, diffs and the passed flag. -/
def verificationResults (summary : Summary) (transactions : List Txn)
    (tolerance : ℚ) : VerificationResults :=
  let calc_deposits := (transactions.map Txn.deposit).sum
  let calc_withdrawals := (transactions.map Txn.withdrawal).sum
  let calc_final := summary.starting_balance + calc_deposits - calc_withdrawals
  let balance_diff := |calc_final - summary.final_balance|
  let deposit_diff := |calc_deposits - summary.total_deposits|
  let withdrawal_diff := |calc_withdrawals - summary.total_withdrawals|
  { balance_diff := balance_diff
    deposit_diff := deposit_diff
    withdrawal_diff := withdrawal_diff
    calc_deposits := calc_deposits
    calc_withdrawals := calc_withdrawals
    calc_final := calc_final
    passed := decide (balance_diff ≤ tolerance ∧ deposit_diff ≤ tolerance ∧
      withdrawal_diff ≤ tolerance) }

/-- Embedding of `verify_pdf_extraction_is_correct`
(src/verify_pdf_extraction.py lines 15-65).  The Python function returns
the results dict on success and raises PDFExtractionVerificationError
when the passed flag is false; raising is modelled by `Except.error`. -/
def verify_pdf_extraction_is_correct (summary : Summary)
    (transactions : List Txn) (tolerance : ℚ) :
    Except PDFExtractionVerificationError VerificationResults :=
  let r := verificationResults summary transactions tolerance
  if r.passed then
    Except.ok r
  else
    Except.error
      { balance_diff := r.balance_diff
        deposit_diff := r.deposit_diff
        withdrawal_diff := r.withdrawal_diff
        expected_final := summary.final_balance
        calculated_final := r.calc_final
        expected_deposits := summary.total_deposits
        calculated_deposits := r.calc_deposits
        expected_withdrawals := summary.total_withdrawals
        calculated_withdrawals := r.calc_withdrawals }

/-! ### String scanning primitives shared by the parsers -/

/-- Whitespace characters removed by the Python str.strip method
(ASCII range). -/
def pyIsSpace (c : Char) : Bool :=
  c == ' ' || c == '\t' || c == '\n' || c == '\r' || c == '\x0b' || c == '\x0c'

/-- Leading and trailing whitespace removal on character lists. -/
def trimChars (cs : List Char) : List Char :=
  ((cs.dropWhile (fun c => pyIsSpace c)).reverse.dropWhile
    (fun c => pyIsSpace c)).reverse

/-- Embedding of the Python str.strip method. -/
def pyStrip (s : String) : String := String.mk (trimChars s.toList)

/-- Embedding of the Python str.split method with a one-character
separator: `"a\nb".split("\n") = ["a", "b"]`, `"".split("\n") = [""]`. -/
def splitOnChar (sep : Char) : List Char → List (List Char)
  | [] => [[]]
  | c :: rest =>
    match splitOnChar sep rest with
    | [] => [[]]
    | h :: t => if c == sep then [] :: h :: t else (c :: h) :: t

/-- Split a page text into its lines, as `page_text.split('\n')` does. -/
def splitLines (s : String) : List String :=
  (splitOnChar '\n' s.toList).map String.mk

/-- Numeric value of an ASCII digit character. -/
def digitVal (c : Char) : Nat := c.toNat - '0'.toNat

/-- Base-10 value of a list of digit characters (Python int of the digit
string, and the integer part of Python float of a digit string). -/
def natOfDigits (cs : List Char) : Nat :=
  cs.foldl (fun n c => 10 * n + digitVal c) 0

/-- Character class `[\d,]` of the amount regex. -/
def isAmtChar (c : Char) : Bool := c.isDigit || c == ','

/-- Value of a matched amount token `run ++ "." ++ [a, b]` after the
Python code removes commas and applies float: the digits of `run` form
the integer part and `a`, `b` the two decimal digits
(src/import_detailed.py line 70). -/
def amtValue (run : List Char) (a b : Char) : ℚ :=
  mkRat (Int.ofNat (100 * natOfDigits (run.filter (fun c => c.isDigit)) +
    (10 * digitVal a + digitVal b))) 100

/-- Fuelled scanner for `re.findall(r'([\d,]+\.\d{2})', line)`
(src/import_detailed.py line 67): left to right, at each position try to
match a maximal nonempty run of `[\d,]` followed by a dot and two digits;
on success emit the value and continue after the match, otherwise advance.
Greedy matching of `[\d,]+` agrees with the regex because the class does
not contain the dot, so no backtracking into the run can succeed.  Each
step consumes at least one character, so fuel `cs.length` never runs out
before the input is exhausted. -/
def scanAmountsAux : Nat → List Char → List ℚ
  | 0, _ => []
  | _, [] => []
  | fuel + 1, c :: rest =>
    if isAmtChar c then
      let run := List.takeWhile isAmtChar (c :: rest)
      let after := List.dropWhile isAmtChar (c :: rest)
      match after with
      | '.' :: a :: b :: rest2 =>
        if a.isDigit && b.isDigit then
          amtValue run a b :: scanAmountsAux fuel rest2
        else
          scanAmountsAux fuel after
      | _ => scanAmountsAux fuel after
    else
      scanAmountsAux fuel rest

/-- All amount tokens of a line, in order of occurrence. -/
def scanAmounts (cs : List Char) : List ℚ := scanAmountsAux cs.length cs

/-- Match of the anchored date regex `^(\d{2}-\d{2}-\d{4})`
(src/import_detailed.py line 33): the first ten characters must be two
digits, a dash, two digits, a dash and four digits; the rest of the line
is unconstrained.  Returns the matched group. -/
def matchDate : List Char → Option String
  | d1 :: d2 :: '-' :: m1 :: m2 :: '-' :: y1 :: y2 :: y3 :: y4 :: _ =>
    if d1.isDigit && d2.isDigit && m1.isDigit && m2.isDigit &&
       y1.isDigit && y2.isDigit && y3.isDigit && y4.isDigit then
      some (String.mk [d1, d2, '-', m1, m2, '-', y1, y2, y3, y4])
    else
      none
  | _ => none

/-- Decides whether `pat` occurs as a contiguous run at the start of `s`. -/
def startsWithList (pat s : List Char) : Bool :=
  match pat, s with
  | [], _ => true
  | _ :: _, [] => false
  | p :: ps, c :: cs => p == c && startsWithList ps cs

/-- Decides whether `pat` occurs as a contiguous run anywhere in `s`
(the Python substring test `pat in s`). -/
def containsList (pat : List Char) : List Char → Bool
  | [] => startsWithList pat []
  | c :: rest => startsWithList pat (c :: rest) || containsList pat rest

/-- Python substring test on strings. -/
def containsStr (pat s : String) : Bool := containsList pat.toList s.toList

/-- Condition of the skip at src/import_detailed.py line 51: the stripped
line after a date line is exactly B/F or C/F, or contains Total:. -/
def isSkipMarker (s : String) : Bool :=
  s == "B/F" || s == "C/F" || containsStr "Total:" s

/-- Join character lists with single spaces, as the Python str.join
method does. -/
def joinSpace : List (List Char) → List Char
  | [] => []
  | [x] => x
  | x :: y :: rest => x ++ ' ' :: joinSpace (y :: rest)

/-- Description assembly of src/import_detailed.py lines 91 and 95: join
the first three description parts with spaces, replace slashes by spaces,
truncate to 100 characters, and fall back to the placeholder when empty. -/
def mkDescription (parts : List String) : String :=
  let d := ((joinSpace ((parts.take 3).map String.toList)).map
    (fun c => if c == '/' then ' ' else c)).take 100
  if d = [] then "Transaction" else String.mk d

/-- Amount classification of src/import_detailed.py lines 80-89: the last
collected numeric token is the new balance; the balance change against
the running balance decides deposit versus withdrawal.  Returns
(deposit, withdrawal, new balance). -/
def recordAmounts (amounts : List ℚ) (current_balance : ℚ) : ℚ × ℚ × ℚ :=
  let new_balance := amounts.getLastD 0
  let balance_change := new_balance - current_balance
  if balance_change > 0 then
    (balance_change, 0, new_balance)
  else
    (0, |balance_change|, new_balance)

/-- Look-ahead loop of src/import_detailed.py lines 56-76: starting at
line index `j`, walk at most `fuel` lines (the source bounds the window
by `j < i + 10`, so the initial fuel is 9), collecting description lines
and amount tokens; stop at a date line, an exact Total:/B/F/C/F line, or
once at least two amount tokens have been collected.  Returns the final
index together with the collected description parts and amounts. -/
def lookAheadAux (lines : List String) :
    Nat → Nat → List String → List ℚ → Nat × List String × List ℚ
  | j, 0, parts, amounts => (j, parts, amounts)
  | j, fuel + 1, parts, amounts =>
    if j < lines.length then
      let cl := pyStrip (lines.getD j "")
      if (matchDate cl.toList).isSome || cl == "Total:" || cl == "B/F" ||
          cl == "C/F" then
        (j, parts, amounts)
      else
        let found := scanAmounts cl.toList
        if found.length ≠ 0 then
          let amounts2 := amounts ++ found
          if 2 ≤ amounts2.length then
            (j, parts, amounts2)
          else
            lookAheadAux lines (j + 1) fuel parts amounts2
        else
          if cl ≠ "" ∧ cl ≠ "/" then
            lookAheadAux lines (j + 1) fuel (parts ++ [cl]) amounts
          else
            lookAheadAux lines (j + 1) fuel parts amounts
    else (j, parts, amounts)

/-- Main per-page scanning loop of `parse_individual_transactions`
(src/import_detailed.py lines 40-106).  The loop index `i` strictly
increases every iteration (by 2 on a marker skip, to the look-ahead end
`j ≥ i + 1` after a candidate, by 1 otherwise), so `lines.length` fuel
never runs out while the guard `i < lines.length` still holds, and when
fuel does run out the returned state equals the guard-failure result. -/
def pageLoop (lines : List String) (pageNum : Nat) :
    Nat → Nat → ℚ → List Txn → List Txn × ℚ
  | 0, _, current_balance, acc => (acc, current_balance)
  | fuel + 1, i, current_balance, acc =>
    if i < lines.length then
      match matchDate (pyStrip (lines.getD i "")).toList with
      | some date_str =>
        if i + 1 < lines.length ∧
            isSkipMarker (pyStrip (lines.getD (i + 1) "")) = true then
          pageLoop lines pageNum fuel (i + 2) current_balance acc
        else
          let r := lookAheadAux lines (i + 1) 9 [] []
          let j := r.1
          let amounts := r.2.2
          if 2 ≤ amounts.length then
            let c := recordAmounts amounts current_balance
            let t : Txn :=
              { date := date_str
                description := mkDescription r.2.1
                deposit := c.1
                withdrawal := c.2.1
                balance := c.2.2
                page := pageNum }
            pageLoop lines pageNum fuel j t.balance (acc ++ [t])
          else
            pageLoop lines pageNum fuel j current_balance acc
      | none => pageLoop lines pageNum fuel (i + 1) current_balance acc
    else (acc, current_balance)

/-- Page iteration of `parse_individual_transactions`
(src/import_detailed.py lines 37-38 and the enumerate starting at 1):
split each page on newlines, run the scanning loop, and thread the
running balance into the next page.  Returns the accumulated transaction
list and the final running balance. -/
def parsePages : List String → Nat → ℚ → List Txn → List Txn × ℚ
  | [], _, current_balance, acc => (acc, current_balance)
  | page :: rest, pageNum, current_balance, acc =>
    let lines := splitLines page
    let r := pageLoop lines pageNum lines.length 0 current_balance acc
    parsePages rest (pageNum + 1) r.2 r.1

/-- Embedding of `parse_individual_transactions`
(src/import_detailed.py lines 27-108). -/
def parse_individual_transactions (pages_text : List String)
    (starting_balance : ℚ) : List Txn :=
  (parsePages pages_text 1 starting_balance []).1

/-- Chained well-formedness of a transaction list: starting from a
previous balance, every transaction has at most one nonzero side and its
balance equals the previous balance plus deposit minus withdrawal, the
next transaction chaining from it. -/
def wellFormedFrom (prev : ℚ) : List Txn → Prop
  | [] => True
  | t :: ts => (t.deposit = 0 ∨ t.withdrawal = 0) ∧
      t.balance = prev + t.deposit - t.withdrawal ∧ wellFormedFrom t.balance ts

/-- Balance of the last transaction of a list, the previous balance when
the list is empty. -/
def lastBal (prev : ℚ) (txns : List Txn) : ℚ :=
  (txns.map Txn.balance).getLastD prev

/-! ### Opening-balance discovery

The brought-forward scan appears twice in src/pdf_reader_ocr.py with the
same structure and different plausibility floors: lines 253-268 in
`extract_all_transactions_from_pdf` (floor 10000) and lines 346-364 in
`process_bank_statement` (floor 100000).  Both scan the lines of the
first page for a stripped line equal to B/F, search the following four
raw lines for the first thousands-separated decimal amount
(regex `(\d{1,3}(?:,\d{3})+\.\d{2})`), and accept the first such amount
exceeding the floor. -/

/-- Maximal run of comma groups `(?:,\d{3})+`: collects the digits of
the groups and returns the remaining characters. -/
def commaGroups : List Char → List Char × List Char
  | ',' :: a :: b :: c :: rest =>
    if a.isDigit && b.isDigit && c.isDigit then
      let r := commaGroups rest
      (a :: b :: c :: r.1, r.2)
    else ([], ',' :: a :: b :: c :: rest)
  | cs => ([], cs)

/-- Attempt of the thousands regex at the current position with an
integer-part prefix of exactly `n` digits, then at least one comma
group, then a dot and two decimal digits.  The value is the Python float
of the match with commas removed. -/
def tryThousands (n : Nat) (cs : List Char) : Option ℚ :=
  let pre := cs.take n
  if pre.length = n ∧ pre.all (fun c => c.isDigit) then
    let g := commaGroups (cs.drop n)
    if g.1.length ≠ 0 then
      match g.2 with
      | '.' :: a :: b :: _ =>
        if a.isDigit && b.isDigit then
          some (mkRat (Int.ofNat (100 * natOfDigits (pre ++ g.1) +
            (10 * digitVal a + digitVal b))) 100)
        else none
      | _ => none
    else none
  else none

/-- Match of the thousands regex anchored at the current position: the
greedy `\d{1,3}` tries three digits first, then two, then one (at most
one of them can complete a match, since a longer all-digit prefix leaves
a digit where the comma of the first group must sit). -/
def matchThousandsAt (cs : List Char) : Option ℚ :=
  match tryThousands 3 cs with
  | some v => some v
  | none =>
    match tryThousands 2 cs with
    | some v => some v
    | none => tryThousands 1 cs

/-- Leftmost match of the thousands regex in a line, as `re.search`. -/
def searchThousands : List Char → Option ℚ
  | [] => none
  | c :: rest =>
    match matchThousandsAt (c :: rest) with
    | some v => some v
    | none => searchThousands rest

/-- Window loop `for j in range(1, 5)` following a B/F marker: inspect up
to four lines; on each line take the leftmost thousands-separated amount
if any; accept the first one exceeding the floor, skipping smaller
matches (src/pdf_reader_ocr.py lines 258-266 and 353-362). -/
def bfWindow (floorAmt : ℚ) : List String → ℚ
  | [] => 0
  | l :: ls =>
    match searchThousands l.toList with
    | some v => if v > floorAmt then v else bfWindow floorAmt ls
    | none => bfWindow floorAmt ls

/-- Scan of the first-page lines for a B/F marker line followed by a
plausible amount: at each stripped line equal to B/F with a successor,
run the four-line window; stop at the first marker that yields a
positive amount, otherwise keep scanning; 0 when nothing is found
(src/pdf_reader_ocr.py lines 256-268 and 350-364). -/
def bfScan (floorAmt : ℚ) : List String → ℚ
  | [] => 0
  | l :: rest =>
    if pyStrip l = "B/F" ∧ rest ≠ [] then
      let v := bfWindow floorAmt (rest.take 4)
      if v > 0 then v else bfScan floorAmt rest
    else bfScan floorAmt rest

/-- Opening-balance discovery of `extract_all_transactions_from_pdf`
(src/pdf_reader_ocr.py lines 253-268), applied to the first page text,
with plausibility floor 10000. -/
def extract_all_starting_balance (firstPage : String) : ℚ :=
  bfScan 10000 (splitLines firstPage)

/-- Per-page result of the external summarizer call
`extract_transactions_with_llm`: a dict with deposits, withdrawals and
balance.  The network call is modelled as an oracle function from the
page text to this record. -/
structure PageLLM where
  deposits : ℚ
  withdrawals : ℚ
  balance : ℚ
deriving DecidableEq, Repr

/-- Accumulation of the per-page summarizer results
(src/pdf_reader_ocr.py lines 338-344): total deposits, total
withdrawals, and the last positive per-page balance as final balance. -/
def llmFold (llm : String → PageLLM) (pages : List String) : ℚ × ℚ × ℚ :=
  pages.foldl (fun s page =>
    (s.1 + (llm page).deposits, s.2.1 + (llm page).withdrawals,
     if (llm page).balance > 0 then (llm page).balance else s.2.2)) (0, 0, 0)

/-- Embedding of `process_bank_statement` (src/pdf_reader_ocr.py lines
316-375): per-page totals from the summarizer oracle, opening balance
from the B/F scan of the first page with floor 100000, and, when that
scan found nothing and the final balance is positive, the fallback
starting_balance = final_balance - total_deposits + total_withdrawals
(lines 366-368). -/
def process_bank_statement (llm : String → PageLLM)
    (pages_text : List String) : Summary :=
  let acc := llmFold llm pages_text
  let sb0 : ℚ :=
    match pages_text with
    | [] => 0
    | firstPage :: _ => bfScan 100000 (splitLines firstPage)
  { starting_balance :=
      if sb0 = 0 ∧ acc.2.2 > 0 then acc.2.2 - acc.1 + acc.2.1 else sb0
    total_deposits := acc.1
    total_withdrawals := acc.2.1
    final_balance := acc.2.2 }

/-! ### The date parser of the importer -/

/-- Digit tail of a Python int literal: digits with single underscores
allowed between digits (Python int accepts 1_000), no trailing or
doubled underscore. -/
def pyDigitsAux : Nat → List Char → Option Nat
  | acc, [] => some acc
  | acc, '_' :: c :: rest =>
    if c.isDigit then pyDigitsAux (10 * acc + digitVal c) rest else none
  | _, ['_'] => none
  | acc, c :: rest =>
    if c.isDigit then pyDigitsAux (10 * acc + digitVal c) rest else none

/-- Nonempty digit sequence accepted by Python int after sign removal. -/
def pyNatOfChars : List Char → Option Nat
  | [] => none
  | c :: rest => if c.isDigit then pyDigitsAux (digitVal c) rest else none

/-- Embedding of the Python int conversion of a string: surrounding
whitespace is stripped, an optional single leading sign is allowed, and
the remainder must be a nonempty digit sequence (with Python underscore
grouping); None models the ValueError. -/
def pyInt (s : String) : Option Int :=
  match (pyStrip s).toList with
  | '+' :: rest => (pyNatOfChars rest).map (fun n => Int.ofNat n)
  | '-' :: rest => (pyNatOfChars rest).map (fun n => -(Int.ofNat n))
  | cs => (pyNatOfChars cs).map (fun n => Int.ofNat n)

/-- Calendar date as produced by datetime.date. -/
structure PyDate where
  year : Int
  month : Int
  day : Int
deriving DecidableEq, Repr

/-- Gregorian leap-year rule used by datetime. -/
def isLeapYear (y : Int) : Bool :=
  y % 4 == 0 && (y % 100 != 0 || y % 400 == 0)

/-- Length of a month as validated by the datetime.date constructor. -/
def daysInMonth (y m : Int) : Int :=
  if m = 2 then (if isLeapYear y then 29 else 28)
  else if m = 4 ∨ m = 6 ∨ m = 9 ∨ m = 11 then 30
  else 31

/-- Validity condition of the datetime.date constructor: year between
MINYEAR = 1 and MAXYEAR = 9999, month 1..12, day within the month. -/
def validDate (y m d : Int) : Bool :=
  decide (1 ≤ y ∧ y ≤ 9999 ∧ 1 ≤ m ∧ m ≤ 12 ∧ 1 ≤ d ∧ d ≤ daysInMonth y m)

/-- Embedding of `parse_date` (src/import_detailed.py lines 111-117):
split on dashes into day, month, year, convert each with Python int and
build datetime.date(year, month, day); any failure inside the try block
(wrong number of parts, int conversion error, invalid calendar values)
falls into the bare except and returns the current date, passed here as
the `today` parameter. -/
def parse_date (today : PyDate) (date_str : String) : PyDate :=
  match (splitOnChar '-' date_str.toList).map String.mk with
  | [dayStr, monthStr, yearStr] =>
    match pyInt yearStr, pyInt monthStr, pyInt dayStr with
    | some y, some m, some d =>
      if validDate y m d then { year := y, month := m, day := d } else today
    | _, _, _ => today
  | _ => today

/-- Strict DD-MM-YYYY shape named by the claim: two digits, dash, two
digits, dash, four digits, and nothing else. -/
def isDDMMYYYY (s : String) : Bool :=
  match s.toList with
  | [d1, d2, '-', m1, m2, '-', y1, y2, y3, y4] =>
    d1.isDigit && d2.isDigit && m1.isDigit && m2.isDigit &&
    y1.isDigit && y2.isDigit && y3.isDigit && y4.isDigit
  | _ => false

/-! ### Claims C1 and C10: the reconciliation verifier -/

/-- C1: for every summary record, transaction list and tolerance,
`verify_pdf_extraction_is_correct` computes calc_deposits as the sum of
the deposit fields, calc_withdrawals as the sum of the withdrawal fields,
and calc_final = starting_balance + calc_deposits - calc_withdrawals;
the passed flag holds exactly when all three absolute differences are
within the tolerance; the function returns the results exactly when
passed holds and raises the reconciliation error, carrying the three
diffs and both operands of each comparison, exactly when some check
fails.  Finally, in scenario D (authoritative final 102000, computed
calc_final 101000, tolerance 1.0) the error is raised with
balance_diff = 1000. -/
theorem C1_verifier_characterization :
    (∀ (summary : Summary) (transactions : List Txn) (tolerance : ℚ),
      (verificationResults summary transactions tolerance).calc_deposits =
        (transactions.map Txn.deposit).sum ∧
      (verificationResults summary transactions tolerance).calc_withdrawals =
        (transactions.map Txn.withdrawal).sum ∧
      (verificationResults summary transactions tolerance).calc_final =
        summary.starting_balance +
          (verificationResults summary transactions tolerance).calc_deposits -
          (verificationResults summary transactions tolerance).calc_withdrawals ∧
      ((verificationResults summary transactions tolerance).passed = true ↔
        (|(verificationResults summary transactions tolerance).calc_final -
            summary.final_balance| ≤ tolerance ∧
         |(verificationResults summary transactions tolerance).calc_deposits -
            summary.total_deposits| ≤ tolerance ∧
         |(verificationResults summary transactions tolerance).calc_withdrawals -
            summary.total_withdrawals| ≤ tolerance)) ∧
      (verify_pdf_extraction_is_correct summary transactions tolerance =
          Except.ok (verificationResults summary transactions tolerance) ↔
        (|(verificationResults summary transactions tolerance).calc_final -
            summary.final_balance| ≤ tolerance ∧
         |(verificationResults summary transactions tolerance).calc_deposits -
            summary.total_deposits| ≤ tolerance ∧
         |(verificationResults summary transactions tolerance).calc_withdrawals -
            summary.total_withdrawals| ≤ tolerance)) ∧
      (verify_pdf_extraction_is_correct summary transactions tolerance =
          Except.error
            { balance_diff :=
                (verificationResults summary transactions tolerance).balance_diff
              deposit_diff :=
                (verificationResults summary transactions tolerance).deposit_diff
              withdrawal_diff :=
                (verificationResults summary transactions tolerance).withdrawal_diff
              expected_final := summary.final_balance
              calculated_final :=
                (verificationResults summary transactions tolerance).calc_final
              expected_deposits := summary.total_deposits
              calculated_deposits :=
                (verificationResults summary transactions tolerance).calc_deposits
              expected_withdrawals := summary.total_withdrawals
              calculated_withdrawals :=
                (verificationResults summary transactions tolerance).calc_withdrawals } ↔
        ¬(|(verificationResults summary transactions tolerance).calc_final -
            summary.final_balance| ≤ tolerance ∧
          |(verificationResults summary transactions tolerance).calc_deposits -
            summary.total_deposits| ≤ tolerance ∧
          |(verificationResults summary transactions tolerance).calc_withdrawals -
            summary.total_withdrawals| ≤ tolerance))) ∧
    verify_pdf_extraction_is_correct
        { starting_balance := 100000, total_deposits := 4000,
          total_withdrawals := 3000, final_balance := 102000 }
        [{ date := "", description := "", deposit := 4000, withdrawal := 0,
           balance := 104000, page := 1 },
         { date := "", description := "", deposit := 0, withdrawal := 3000,
           balance := 101000, page := 1 }] 1 =
      Except.error
        { balance_diff := 1000, deposit_diff := 0, withdrawal_diff := 0,
          expected_final := 102000, calculated_final := 101000,
          expected_deposits := 4000, calculated_deposits := 4000,
          expected_withdrawals := 3000, calculated_withdrawals := 3000 } := by
  refine ⟨fun summary transactions tolerance => ?_, by decide⟩
  have hpass : (verificationResults summary transactions tolerance).passed = true ↔
      (|(verificationResults summary transactions tolerance).calc_final -
          summary.final_balance| ≤ tolerance ∧
       |(verificationResults summary transactions tolerance).calc_deposits -
          summary.total_deposits| ≤ tolerance ∧
       |(verificationResults summary transactions tolerance).calc_withdrawals -
          summary.total_withdrawals| ≤ tolerance) := by
    simp only [verificationResults, decide_eq_true_eq]
  refine ⟨rfl, rfl, rfl, hpass, ?_, ?_⟩
  · rw [← hpass]
    unfold verify_pdf_extraction_is_correct
    by_cases hp : (verificationResults summary transactions tolerance).passed
    · simp [hp]
    · simp [hp]
  · rw [← hpass]
    unfold verify_pdf_extraction_is_correct
    by_cases hp : (verificationResults summary transactions tolerance).passed
    · simp [hp]
    · simp [hp]

/-- C10: the tolerance comparison of the verifier is inclusive at the
boundary: when each of the three absolute differences equals the
tolerance exactly, the passed flag is true and the function returns the
results instead of raising. -/
theorem C10_tolerance_inclusive :
    ∀ (summary : Summary) (transactions : List Txn) (tolerance : ℚ),
    (verificationResults summary transactions tolerance).balance_diff = tolerance →
    (verificationResults summary transactions tolerance).deposit_diff = tolerance →
    (verificationResults summary transactions tolerance).withdrawal_diff = tolerance →
    verify_pdf_extraction_is_correct summary transactions tolerance =
      Except.ok (verificationResults summary transactions tolerance) ∧
    (verificationResults summary transactions tolerance).passed = true := by
  intro summary transactions tolerance hb hd hw
  have hp : (verificationResults summary transactions tolerance).passed = true := by
    have hb' := hb
    have hd' := hd
    have hw' := hw
    simp only [verificationResults] at hb' hd' hw' ⊢
    rw [hb', hd', hw']
    simp
  refine ⟨?_, hp⟩
  unfold verify_pdf_extraction_is_correct
  simp [hp]

/-- Witness for C10: a summary and empty transaction list for which each
of the three diffs equals the tolerance exactly; the verifier passes. -/
theorem C10_tolerance_inclusive_witness :
    verify_pdf_extraction_is_correct
        { starting_balance := 0, total_deposits := 1, total_withdrawals := 1,
          final_balance := 1 } [] 1 =
      Except.ok (verificationResults
        { starting_balance := 0, total_deposits := 1, total_withdrawals := 1,
          final_balance := 1 } [] 1) ∧
    (verificationResults
      { starting_balance := 0, total_deposits := 1, total_withdrawals := 1,
        final_balance := 1 } [] 1).passed = true :=
  C10_tolerance_inclusive
    { starting_balance := 0, total_deposits := 1, total_withdrawals := 1,
      final_balance := 1 } [] 1 (by decide) (by decide) (by decide)

/-! ### Claims C2, C4, C5: the segmenter and classifier -/

/-- Helper: the look-ahead loop never moves its line index backwards. -/
theorem lookAheadAux_ge (lines : List String) :
    ∀ (fuel j : Nat) (parts : List String) (amounts : List ℚ),
    j ≤ (lookAheadAux lines j fuel parts amounts).1 := by
  intro fuel
  induction fuel with
  | zero =>
    intro j parts amounts
    exact Nat.le_refl j
  | succ fuel ih =>
    intro j parts amounts
    simp only [lookAheadAux]
    split_ifs with h1 h2 h3 h4 h5
    · exact Nat.le_refl j
    · exact Nat.le_refl j
    · exact Nat.le_of_succ_le (ih (j + 1) parts (amounts ++ scanAmounts
        ((pyStrip (lines.getD j "")).toList)))
    · exact Nat.le_of_succ_le (ih (j + 1)
        (parts ++ [pyStrip (lines.getD j "")]) amounts)
    · exact Nat.le_of_succ_le (ih (j + 1) parts amounts)
    · exact Nat.le_refl j

/-- Helper: unfolding of the skip-marker test into its three cases. -/
theorem isSkipMarker_iff (s : String) :
    isSkipMarker s = true ↔
      (s = "B/F" ∨ s = "C/F" ∨ containsStr "Total:" s = true) := by
  simp [isSkipMarker, or_assoc]

/-- C2: the classifier takes the last collected numeric token as the new
balance and splits on the sign of delta = new balance minus previous
balance: positive delta gives a deposit of that magnitude and zero
withdrawal, otherwise a withdrawal of the absolute delta and zero
deposit, with the balance field always the last token.  Concretely, the
page text of scenario A yields a single deposit of 450 at balance 50000
for previous balance 49550, and the same text yields a withdrawal of 450
for previous balance 50450. -/
theorem C2_classifier_delta :
    (∀ (amounts : List ℚ) (previous_balance : ℚ), 2 ≤ amounts.length →
      (amounts.getLastD 0 - previous_balance > 0 →
        recordAmounts amounts previous_balance =
          (amounts.getLastD 0 - previous_balance, 0, amounts.getLastD 0)) ∧
      (amounts.getLastD 0 - previous_balance ≤ 0 →
        recordAmounts amounts previous_balance =
          (0, previous_balance - amounts.getLastD 0, amounts.getLastD 0))) ∧
    parse_individual_transactions
      ["01-08-2025\nUPI/John/abc/lunch/BANK\n450.00\n50000.00"] 49550 =
      [{ date := "01-08-2025", description := "UPI John abc lunch BANK",
         deposit := 450, withdrawal := 0, balance := 50000, page := 1 }] ∧
    parse_individual_transactions
      ["01-08-2025\nUPI/John/abc/lunch/BANK\n450.00\n50000.00"] 50450 =
      [{ date := "01-08-2025", description := "UPI John abc lunch BANK",
         deposit := 0, withdrawal := 450, balance := 50000, page := 1 }] := by
  refine ⟨fun amounts previous_balance _ => ⟨fun hpos => ?_, fun hnonpos => ?_⟩,
    by decide, by decide⟩
  · unfold recordAmounts
    rw [if_pos hpos]
  · unfold recordAmounts
    rw [if_neg (by exact fun h => absurd h (not_lt.mpr hnonpos)), abs_of_nonpos
      (by exact sub_nonpos.mpr (sub_nonpos.mp hnonpos)), neg_sub]

/-- Witness for C2: the classifier applied to the two tokens of scenario
A with previous balance 49550. -/
theorem C2_classifier_delta_witness :
    recordAmounts [450, 50000] 49550 =
      ([450, 50000].getLastD 0 - 49550, 0, [450, 50000].getLastD 0) :=
  (C2_classifier_delta.1 [450, 50000] 49550 (by decide)).1 (by decide)

/-- C4: a candidate window opened by a date line that yields fewer than
two numeric tokens is discarded entirely: the loop continues at the
look-ahead end with the accumulated transactions and the running balance
unchanged (and, the embedding being total, no exception is raised), and
the scan strictly advances.  Concretely, a date line immediately followed
by another date line emits nothing for the first date. -/
theorem C4_malformed_candidate_discarded :
    (∀ (lines : List String) (pageNum fuel i : Nat) (bal : ℚ) (acc : List Txn),
      i < lines.length →
      (matchDate (pyStrip (lines.getD i "")).toList).isSome = true →
      ¬(i + 1 < lines.length ∧
        isSkipMarker (pyStrip (lines.getD (i + 1) "")) = true) →
      (lookAheadAux lines (i + 1) 9 [] []).2.2.length < 2 →
      pageLoop lines pageNum (fuel + 1) i bal acc =
        pageLoop lines pageNum fuel (lookAheadAux lines (i + 1) 9 [] []).1
          bal acc ∧
      i < (lookAheadAux lines (i + 1) 9 [] []).1) ∧
    parse_individual_transactions ["01-08-2025\n02-08-2025\n450.00\n50000.00"]
      49550 =
      [{ date := "02-08-2025", description := "Transaction", deposit := 450,
         withdrawal := 0, balance := 50000, page := 1 }] := by
  refine ⟨fun lines pageNum fuel i bal acc hi hdate hskip hlt => ?_, by decide⟩
  obtain ⟨d, hd⟩ := Option.isSome_iff_exists.mp hdate
  constructor
  · simp only [pageLoop]
    rw [if_pos hi, hd]
    simp only
    rw [if_neg hskip, if_neg (not_le.mpr hlt)]
  · exact Nat.lt_of_lt_of_le (Nat.lt_succ_self i)
      (lookAheadAux_ge lines 9 (i + 1) [] [])

/-- Witness for C4: the first date line of the concrete two-date page
opens a window that stops at the second date line with no numeric
tokens, and the loop steps over it without emitting. -/
theorem C4_malformed_candidate_discarded_witness :
    pageLoop ["01-08-2025", "02-08-2025"] 1 2 0 49550 [] =
      pageLoop ["01-08-2025", "02-08-2025"] 1 1
        (lookAheadAux ["01-08-2025", "02-08-2025"] 1 9 [] []).1 49550 [] ∧
    0 < (lookAheadAux ["01-08-2025", "02-08-2025"] 1 9 [] []).1 :=
  C4_malformed_candidate_discarded.1 ["01-08-2025", "02-08-2025"] 1 1 0 49550 []
    (by decide) (by decide) (by decide) (by decide)

/-- C5: a date line immediately followed by a B/F or C/F marker line, or
by a line containing Total:, emits no transaction; the loop skips both
the date line and its marker line and continues at index i + 2 with the
accumulated transactions and running balance unchanged. -/
theorem C5_marker_skip :
    ∀ (lines : List String) (pageNum fuel i : Nat) (bal : ℚ) (acc : List Txn),
    i < lines.length →
    (matchDate (pyStrip (lines.getD i "")).toList).isSome = true →
    i + 1 < lines.length →
    (pyStrip (lines.getD (i + 1) "") = "B/F" ∨
     pyStrip (lines.getD (i + 1) "") = "C/F" ∨
     containsStr "Total:" (pyStrip (lines.getD (i + 1) "")) = true) →
    pageLoop lines pageNum (fuel + 1) i bal acc =
      pageLoop lines pageNum fuel (i + 2) bal acc := by
  intro lines pageNum fuel i bal acc hi hdate hi1 hmark
  obtain ⟨d, hd⟩ := Option.isSome_iff_exists.mp hdate
  simp only [pageLoop]
  rw [if_pos hi, hd]
  simp only
  rw [if_pos ⟨hi1, (isSkipMarker_iff _).mpr hmark⟩]

/-- Witness for C5: a date line followed by a B/F marker is skipped as a
section header. -/
theorem C5_marker_skip_witness :
    pageLoop ["01-08-2025", "B/F", "hello"] 1 3 0 0 [] =
      pageLoop ["01-08-2025", "B/F", "hello"] 1 2 2 0 [] :=
  C5_marker_skip ["01-08-2025", "B/F", "hello"] 1 2 0 0 []
    (by decide) (by decide) (by decide) (Or.inl (by decide))

/-! ### Claims C3 and C8: parser invariants and determinism -/

theorem lastBal_cons (p : ℚ) (t : Txn) (ts : List Txn) :
    lastBal p (t :: ts) = lastBal t.balance ts := by
  simp only [lastBal, List.map_cons, List.getLastD_cons]

theorem lastBal_append_one (p : ℚ) (acc : List Txn) (t : Txn) :
    lastBal p (acc ++ [t]) = t.balance := by
  simp [lastBal]

theorem wellFormedFrom_append :
    ∀ (acc : List Txn) (p : ℚ) (t : Txn), wellFormedFrom p acc →
    (t.deposit = 0 ∨ t.withdrawal = 0) →
    t.balance = lastBal p acc + t.deposit - t.withdrawal →
    wellFormedFrom p (acc ++ [t]) := by
  intro acc
  induction acc with
  | nil =>
    intro p t _ hone hbal
    exact ⟨hone, by simpa [lastBal] using hbal, trivial⟩
  | cons a as ih =>
    intro p t hwf hone hbal
    exact ⟨hwf.1, hwf.2.1, ih a.balance t hwf.2.2 hone
      (by rwa [lastBal_cons] at hbal)⟩

/-- The classifier output has at most one nonzero side and reproduces the
new balance from the previous balance. -/
theorem recordAmounts_spec (amounts : List ℚ) (bal : ℚ) :
    ((recordAmounts amounts bal).1 = 0 ∨ (recordAmounts amounts bal).2.1 = 0) ∧
    (recordAmounts amounts bal).2.2 =
      bal + (recordAmounts amounts bal).1 - (recordAmounts amounts bal).2.1 := by
  unfold recordAmounts
  by_cases h : amounts.getLastD 0 - bal > 0
  · rw [if_pos h]
    exact ⟨Or.inr rfl, by ring⟩
  · rw [if_neg h]
    refine ⟨Or.inl rfl, ?_⟩
    rw [abs_of_nonpos (by linarith [not_lt.mp h])]
    ring

/-- The scanning loop preserves chained well-formedness and keeps the
running balance equal to the balance of the last emitted transaction. -/
theorem pageLoop_wf (lines : List String) (pageNum : Nat) :
    ∀ (fuel : Nat) (i : Nat) (bal : ℚ) (acc : List Txn) (p : ℚ),
    wellFormedFrom p acc → bal = lastBal p acc →
    wellFormedFrom p (pageLoop lines pageNum fuel i bal acc).1 ∧
    (pageLoop lines pageNum fuel i bal acc).2 =
      lastBal p (pageLoop lines pageNum fuel i bal acc).1 := by
  intro fuel
  induction fuel with
  | zero =>
    intro i bal acc p hwf hbal
    exact ⟨hwf, hbal⟩
  | succ fuel ih =>
    intro i bal acc p hwf hbal
    simp only [pageLoop]
    by_cases hi : i < lines.length
    · rw [if_pos hi]
      cases hmd : matchDate (pyStrip (lines.getD i "")).toList with
      | none => exact ih (i + 1) bal acc p hwf hbal
      | some d =>
        simp only
        by_cases hskip : i + 1 < lines.length ∧
            isSkipMarker (pyStrip (lines.getD (i + 1) "")) = true
        · rw [if_pos hskip]
          exact ih (i + 2) bal acc p hwf hbal
        · rw [if_neg hskip]
          by_cases hlen : 2 ≤ (lookAheadAux lines (i + 1) 9 [] []).2.2.length
          · rw [if_pos hlen]
            refine ih _ _ _ p ?_ ?_
            · refine wellFormedFrom_append acc p _ hwf ?_ ?_
              · exact (recordAmounts_spec _ bal).1
              · rw [← hbal]
                exact (recordAmounts_spec _ bal).2
            · rw [lastBal_append_one]
          · rw [if_neg hlen]
            exact ih _ bal acc p hwf hbal
    · rw [if_neg hi]
      exact ⟨hwf, hbal⟩

/-- The page iteration preserves chained well-formedness and the
last-balance threading across page boundaries. -/
theorem parsePages_wf :
    ∀ (pages : List String) (pageNum : Nat) (bal : ℚ) (acc : List Txn) (p : ℚ),
    wellFormedFrom p acc → bal = lastBal p acc →
    wellFormedFrom p (parsePages pages pageNum bal acc).1 ∧
    (parsePages pages pageNum bal acc).2 =
      lastBal p (parsePages pages pageNum bal acc).1 := by
  intro pages
  induction pages with
  | nil =>
    intro pageNum bal acc p hwf hbal
    exact ⟨hwf, hbal⟩
  | cons page rest ih =>
    intro pageNum bal acc p hwf hbal
    simp only [parsePages]
    have h := pageLoop_wf (splitLines page) pageNum (splitLines page).length 0
      bal acc p hwf hbal
    exact ih (pageNum + 1) _ _ p h.1 h.2

theorem wellFormedFrom_mem :
    ∀ (l : List Txn) (p : ℚ), wellFormedFrom p l →
    ∀ t ∈ l, t.deposit = 0 ∨ t.withdrawal = 0 := by
  intro l
  induction l with
  | nil => intro p _ t ht; cases ht
  | cons a as ih =>
    intro p hwf t ht
    rcases List.mem_cons.mp ht with h | h
    · exact h ▸ hwf.1
    · exact ih a.balance hwf.2.2 t h

/-- The page iteration processes a concatenation of page lists by first
processing the prefix and then continuing on the suffix from the carried
state. -/
theorem parsePages_append :
    ∀ (pre suf : List String) (pageNum : Nat) (bal : ℚ) (acc : List Txn),
    parsePages (pre ++ suf) pageNum bal acc =
      parsePages suf (pageNum + pre.length) (parsePages pre pageNum bal acc).2
        (parsePages pre pageNum bal acc).1 := by
  intro pre
  induction pre with
  | nil =>
    intro suf pageNum bal acc
    simp [parsePages]
  | cons page rest ih =>
    intro suf pageNum bal acc
    simp only [List.cons_append, parsePages, List.length_cons]
    simp only [List.append_eq]
    rw [ih]
    have h : pageNum + 1 + rest.length = pageNum + (rest.length + 1) := by
      omega
    rw [h]

theorem wellFormedFrom_getD :
    ∀ (l : List Txn) (p : ℚ), wellFormedFrom p l →
    ∀ i, i < l.length →
    (l.getD i default).balance =
      (if i = 0 then p else (l.getD (i - 1) default).balance) +
      (l.getD i default).deposit - (l.getD i default).withdrawal := by
  intro l
  induction l with
  | nil => intro p _ i hi; simp at hi
  | cons t ts ih =>
    intro p hwf i hi
    match i with
    | 0 => simpa using hwf.2.1
    | Nat.succ k =>
      have h := ih t.balance hwf.2.2 k (by simpa using hi)
      cases k with
      | zero => simpa using h
      | succ m => simpa using h

/-- C3: in the parser output, every transaction has at most one of
deposit and withdrawal nonzero; the balance of transaction i equals the
balance of transaction i-1 (the starting balance for i = 0) plus its
deposit minus its withdrawal, exactly (so in particular within any
reconciliation tolerance); the running balance carried out of the page
iteration equals the balance of the last emitted transaction, the
starting balance when no transaction was emitted; and for every split of
the document into a page prefix and suffix, the parse continues into the
suffix carrying exactly the last emitted balance of the prefix, so
pagination never resets the thread. -/
theorem C3_parser_invariants :
    ∀ (pages_text : List String) (starting_balance : ℚ),
    (∀ t ∈ parse_individual_transactions pages_text starting_balance,
      t.deposit = 0 ∨ t.withdrawal = 0) ∧
    (∀ i, i < (parse_individual_transactions pages_text starting_balance).length →
      ((parse_individual_transactions pages_text starting_balance).getD i
          default).balance =
        (if i = 0 then starting_balance
         else ((parse_individual_transactions pages_text starting_balance).getD
            (i - 1) default).balance) +
        ((parse_individual_transactions pages_text starting_balance).getD i
          default).deposit -
        ((parse_individual_transactions pages_text starting_balance).getD i
          default).withdrawal) ∧
    (parsePages pages_text 1 starting_balance []).2 =
      lastBal starting_balance
        (parse_individual_transactions pages_text starting_balance) ∧
    (∀ pre suf : List String, pages_text = pre ++ suf →
      parsePages pages_text 1 starting_balance [] =
        parsePages suf (1 + pre.length)
          (lastBal starting_balance
            (parse_individual_transactions pre starting_balance))
          (parse_individual_transactions pre starting_balance)) := by
  intro pages_text starting_balance
  have h := parsePages_wf pages_text 1 starting_balance [] starting_balance
    trivial rfl
  refine ⟨wellFormedFrom_mem _ _ h.1, wellFormedFrom_getD _ _ h.1, h.2,
    fun pre suf hsplit => ?_⟩
  have hpre := parsePages_wf pre 1 starting_balance [] starting_balance
    trivial rfl
  rw [hsplit, parsePages_append pre suf 1 starting_balance []]
  simp only [parse_individual_transactions]
  rw [← hpre.2]

/-- Witness for C3: the balance recurrence instantiated at the first
transaction of the scenario A page. -/
theorem C3_parser_invariants_witness :
    ((parse_individual_transactions
        ["01-08-2025\nUPI/John/abc/lunch/BANK\n450.00\n50000.00"] 49550).getD 0
        default).balance =
      (if (0 : Nat) = 0 then (49550 : ℚ)
       else ((parse_individual_transactions
          ["01-08-2025\nUPI/John/abc/lunch/BANK\n450.00\n50000.00"] 49550).getD
          (0 - 1) default).balance) +
      ((parse_individual_transactions
        ["01-08-2025\nUPI/John/abc/lunch/BANK\n450.00\n50000.00"] 49550).getD 0
        default).deposit -
      ((parse_individual_transactions
        ["01-08-2025\nUPI/John/abc/lunch/BANK\n450.00\n50000.00"] 49550).getD 0
        default).withdrawal :=
  (C3_parser_invariants
    ["01-08-2025\nUPI/John/abc/lunch/BANK\n450.00\n50000.00"] 49550).2.1 0
    (by decide)

/-- The scanning loop only ever appends to its accumulator: its behavior
does not depend on previously accumulated transactions. -/
theorem pageLoop_acc (lines : List String) (pageNum : Nat) :
    ∀ (fuel i : Nat) (bal : ℚ) (acc : List Txn),
    pageLoop lines pageNum fuel i bal acc =
      (acc ++ (pageLoop lines pageNum fuel i bal []).1,
       (pageLoop lines pageNum fuel i bal []).2) := by
  intro fuel
  induction fuel with
  | zero =>
    intro i bal acc
    simp [pageLoop]
  | succ fuel ih =>
    intro i bal acc
    simp only [pageLoop]
    by_cases hi : i < lines.length
    · simp only [if_pos hi]
      cases hmd : matchDate (pyStrip (lines.getD i "")).toList with
      | none =>
        simp only
        exact ih (i + 1) bal acc
      | some d =>
        simp only
        by_cases hskip : i + 1 < lines.length ∧
            isSkipMarker (pyStrip (lines.getD (i + 1) "")) = true
        · simp only [if_pos hskip]
          exact ih (i + 2) bal acc
        · simp only [if_neg hskip]
          by_cases hlen : 2 ≤ (lookAheadAux lines (i + 1) 9 [] []).2.2.length
          · simp only [if_pos hlen]
            rw [ih _ _ (acc ++ [_]), ih _ _ ([] ++ [_])]
            simp
          · simp only [if_neg hlen]
            exact ih _ bal acc
    · simp only [if_neg hi]
      simp

/-- The page iteration only ever appends to its accumulator. -/
theorem parsePages_acc :
    ∀ (pages : List String) (pageNum : Nat) (bal : ℚ) (acc : List Txn),
    parsePages pages pageNum bal acc =
      (acc ++ (parsePages pages pageNum bal []).1,
       (parsePages pages pageNum bal []).2) := by
  intro pages
  induction pages with
  | nil =>
    intro pageNum bal acc
    simp [parsePages]
  | cons page rest ih =>
    intro pageNum bal acc
    simp only [parsePages]
    rw [pageLoop_acc (splitLines page) pageNum (splitLines page).length 0 bal acc,
      pageLoop_acc (splitLines page) pageNum (splitLines page).length 0 bal []]
    rw [ih _ _ (acc ++ _), ih _ _ ([] ++ _)]
    simp

/-- C8: the segmenter and classifier are deterministic: two runs of
`parse_individual_transactions` on the same page texts and starting
balance produce the same transaction list, and the parse is independent
of any previously accumulated state: running the page iteration on top of
an arbitrary residual accumulator only appends the same parse result to
it (the embedding has no mutable global state, mirroring the source,
whose loop state is local to the call). -/
theorem C8_parser_deterministic :
    ∀ (pages_text : List String) (starting_balance : ℚ),
    (parse_individual_transactions pages_text starting_balance,
      parse_individual_transactions pages_text starting_balance).1 =
    (parse_individual_transactions pages_text starting_balance,
      parse_individual_transactions pages_text starting_balance).2 ∧
    ∀ acc : List Txn, (parsePages pages_text 1 starting_balance acc).1 =
      acc ++ parse_individual_transactions pages_text starting_balance := by
  intro pages_text starting_balance
  refine ⟨rfl, fun acc => ?_⟩
  rw [parsePages_acc pages_text 1 starting_balance acc]
  rfl

/-! ### Claims C6 and C7: opening-balance plausibility -/

/-- The window loop returns 0 or an amount above the floor. -/
theorem bfWindow_pos (floorAmt : ℚ) :
    ∀ ls : List String,
    bfWindow floorAmt ls = 0 ∨ bfWindow floorAmt ls > floorAmt := by
  intro ls
  induction ls with
  | nil => exact Or.inl rfl
  | cons l ls ih =>
    simp only [bfWindow]
    cases hs : searchThousands l.toList with
    | none => exact ih
    | some v =>
      simp only
      by_cases hv : v > floorAmt
      · rw [if_pos hv]
        exact Or.inr hv
      · rw [if_neg hv]
        exact ih

/-- The brought-forward scan returns 0 or an amount above the floor. -/
theorem bfScan_pos (floorAmt : ℚ) (h0 : 0 ≤ floorAmt) :
    ∀ lines : List String,
    bfScan floorAmt lines = 0 ∨ bfScan floorAmt lines > floorAmt := by
  intro lines
  induction lines with
  | nil => exact Or.inl rfl
  | cons l rest ih =>
    simp only [bfScan]
    by_cases hm : pyStrip l = "B/F" ∧ rest ≠ []
    · rw [if_pos hm]
      rcases bfWindow_pos floorAmt (rest.take 4) with hw | hw
      · rw [hw, if_neg (lt_irrefl 0)]
        exact ih
      · rw [if_pos (lt_of_le_of_lt h0 hw)]
        exact Or.inr hw
    · rw [if_neg hm]
      exact ih

/-- A line list without a stripped B/F line yields no opening balance. -/
theorem bfScan_no_marker (floorAmt : ℚ) :
    ∀ lines : List String, (∀ l ∈ lines, pyStrip l ≠ "B/F") →
    bfScan floorAmt lines = 0 := by
  intro lines
  induction lines with
  | nil => intro _; rfl
  | cons l rest ih =>
    intro h
    simp only [bfScan]
    rw [if_neg (fun hc => h l (List.mem_cons_self l rest) hc.1)]
    exact ih (fun x hx => h x (List.mem_cons_of_mem l hx))

/-- C7: in both opening-balance scans, an accepted starting balance is
always strictly above the plausibility floor (10000 in
extract_all_transactions_from_pdf, 100000 in process_bank_statement), so
the amount 5,000.00 can never be accepted; concretely, a B/F marker
followed by 5,000.00 yields starting balance 0 under both floors, while
one followed by 125,430.50 yields starting balance 125430.50 under both
floors. -/
theorem C7_opening_balance_plausibility :
    (∀ lines : List String,
      bfScan 10000 lines = 0 ∨ bfScan 10000 lines > 10000) ∧
    (∀ lines : List String,
      bfScan 100000 lines = 0 ∨ bfScan 100000 lines > 100000) ∧
    (∀ lines : List String,
      bfScan 10000 lines ≠ 5000 ∧ bfScan 100000 lines ≠ 5000) ∧
    bfScan 10000 ["B/F", "5,000.00"] = 0 ∧
    bfScan 100000 ["B/F", "5,000.00"] = 0 ∧
    bfScan 10000 ["B/F", "125,430.50"] = mkRat 12543050 100 ∧
    bfScan 100000 ["B/F", "125,430.50"] = mkRat 12543050 100 ∧
    extract_all_starting_balance "B/F\n125,430.50" = mkRat 12543050 100 ∧
    (process_bank_statement (fun _ => (⟨0, 0, 0⟩ : PageLLM)) ["B/F\n125,430.50"]).starting_balance =
      mkRat 12543050 100 := by
  refine ⟨bfScan_pos 10000 (by norm_num), bfScan_pos 100000 (by norm_num),
    fun lines => ⟨?_, ?_⟩, by decide, by decide, by decide, by decide,
    by decide, by decide⟩
  · rcases bfScan_pos 10000 (by norm_num) lines with h | h
    · rw [h]
      norm_num
    · intro he
      rw [he] at h
      norm_num at h
  · rcases bfScan_pos 100000 (by norm_num) lines with h | h
    · rw [h]
      norm_num
    · intro he
      rw [he] at h
      norm_num at h

/-- Witness for C7: the never-5000 conjunct instantiated at the page
whose marker is followed by the below-floor amount. -/
theorem C7_opening_balance_plausibility_witness :
    bfScan 10000 ["B/F", "5,000.00"] ≠ 5000 ∧
    bfScan 100000 ["B/F", "5,000.00"] ≠ 5000 :=
  C7_opening_balance_plausibility.2.2.1 ["B/F", "5,000.00"]

/-- Counterexample for C6: a first page with no brought-forward marker
does not make process_bank_statement report starting balance 0 when the
summarizer totals give a positive final balance: the starting balance is
back-derived as final - deposits + withdrawals (here 100000), contrary
to the claim that it stays 0. -/
theorem C6_counterexample :
    (∀ l ∈ splitLines "no marker here", pyStrip l ≠ "B/F") ∧
    (process_bank_statement (fun _ => (⟨5000, 3000, 102000⟩ : PageLLM)) ["no marker here"]).starting_balance = 100000 ∧
    (100000 : ℚ) ≠ 0 := by
  refine ⟨by decide, by decide, by norm_num⟩

/-- C6 as amended: whenever the brought-forward scan of the first page
locates nothing — either no line strips to B/F, or every marker is
followed within its window only by amounts at or below the plausibility
floor — extract_all_transactions_from_pdf computes starting balance 0,
while process_bank_statement computes 0 only when the final balance is
not positive, and otherwise silently back-derives starting_balance =
final_balance - total_deposits + total_withdrawals.  A marker-free page
is such a case under both floors; a B/F marker followed by 50,000.00 is
such a case under the floor 100000 of process_bank_statement, and one
followed by 5,000.00 under the floor 10000 of
extract_all_transactions_from_pdf; in the former case with positive
summarizer totals the fallback fires. -/
theorem C6_amended_starting_balance :
    (∀ firstPage : String, bfScan 10000 (splitLines firstPage) = 0 →
      extract_all_starting_balance firstPage = 0) ∧
    (∀ lines : List String, (∀ l ∈ lines, pyStrip l ≠ "B/F") →
      bfScan 10000 lines = 0 ∧ bfScan 100000 lines = 0) ∧
    bfScan 100000 (splitLines "B/F\n50,000.00") = 0 ∧
    extract_all_starting_balance "B/F\n5,000.00" = 0 ∧
    (∀ (llm : String → PageLLM) (firstPage : String) (rest : List String),
      bfScan 100000 (splitLines firstPage) = 0 →
      ((process_bank_statement llm (firstPage :: rest)).final_balance ≤ 0 →
        (process_bank_statement llm (firstPage :: rest)).starting_balance = 0) ∧
      ((process_bank_statement llm (firstPage :: rest)).final_balance > 0 →
        (process_bank_statement llm (firstPage :: rest)).starting_balance =
          (process_bank_statement llm (firstPage :: rest)).final_balance -
          (process_bank_statement llm (firstPage :: rest)).total_deposits +
          (process_bank_statement llm (firstPage :: rest)).total_withdrawals)) ∧
    (process_bank_statement (fun _ => (⟨5000, 3000, 102000⟩ : PageLLM))
      ["B/F\n50,000.00"]).starting_balance = 100000 := by
  refine ⟨?_, ?_, by decide, by decide, ?_, by decide⟩
  · intro firstPage h
    exact h
  · intro lines h
    exact ⟨bfScan_no_marker 10000 lines h, bfScan_no_marker 100000 lines h⟩
  · intro llm firstPage rest hsb
    constructor
    · intro hfb
      simp only [process_bank_statement] at hfb ⊢
      rw [hsb, if_neg (fun hc => absurd hc.2 (not_lt.mpr hfb))]
    · intro hfb
      simp only [process_bank_statement] at hfb ⊢
      rw [hsb, if_pos ⟨rfl, hfb⟩]

/-- Witness for C6 as amended: for a first page whose B/F marker is
followed only by the below-floor amount 50,000.00 (so the scan locates
no plausible opening balance) and a summarizer reporting deposits 5000,
withdrawals 3000 and balance 102000, the starting balance equals
final - deposits + withdrawals. -/
theorem C6_amended_starting_balance_witness :
    (process_bank_statement (fun _ => (⟨5000, 3000, 102000⟩ : PageLLM)) ["B/F\n50,000.00"]).starting_balance =
      (process_bank_statement (fun _ => (⟨5000, 3000, 102000⟩ : PageLLM)) ["B/F\n50,000.00"]).final_balance -
      (process_bank_statement (fun _ => (⟨5000, 3000, 102000⟩ : PageLLM)) ["B/F\n50,000.00"]).total_deposits +
      (process_bank_statement (fun _ => (⟨5000, 3000, 102000⟩ : PageLLM)) ["B/F\n50,000.00"]).total_withdrawals :=
  ((C6_amended_starting_balance.2.2.2.2.1 (fun _ => (⟨5000, 3000, 102000⟩ : PageLLM))
    "B/F\n50,000.00" [] (by decide)).2) (by decide)

/-! ### Claim C9: parse_date never raises -/

/-- Counterexample for C9: the string 5-3-2020 is not a well-formed
DD-MM-YYYY string, yet parse_date returns 2020-03-05 rather than the
current date, because Python int accepts unpadded digit groups. -/
theorem C9_counterexample :
    isDDMMYYYY "5-3-2020" = false ∧
    parse_date { year := 2025, month := 1, day := 1 } "5-3-2020" =
      { year := 2020, month := 3, day := 5 } ∧
    ({ year := 2020, month := 3, day := 5 } : PyDate) ≠
      { year := 2025, month := 1, day := 1 } := by
  refine ⟨by decide, by decide, by decide⟩

/-- C9 as amended: parse_date never raises (the embedding is total and
always returns the fallback or a valid calendar date); it returns the
current date exactly when the string does not split on dashes into three
components each accepted by the Python int conversion with the resulting
year, month and day forming a valid date; in particular well-formed
DD-MM-YYYY dates are parsed, but so are unpadded strings such as
5-3-2020, which the original claim said would be replaced by today. -/
theorem C9_amended_parse_date :
    (∀ (today : PyDate) (s : String),
      parse_date today s = today ∨
      validDate (parse_date today s).year (parse_date today s).month
        (parse_date today s).day = true) ∧
    (∀ (today : PyDate) (s : String),
      ((splitOnChar '-' s.toList).map String.mk).length ≠ 3 →
      parse_date today s = today) ∧
    (∀ (today : PyDate) (s : String) (p1 p2 p3 : String),
      (splitOnChar '-' s.toList).map String.mk = [p1, p2, p3] →
      (∀ y m d, pyInt p3 = some y → pyInt p2 = some m → pyInt p1 = some d →
        parse_date today s =
          (if validDate y m d then { year := y, month := m, day := d }
           else today)) ∧
      ((pyInt p1 = none ∨ pyInt p2 = none ∨ pyInt p3 = none) →
        parse_date today s = today)) ∧
    parse_date { year := 2025, month := 1, day := 1 } "01-08-2025" =
      { year := 2025, month := 8, day := 1 } ∧
    parse_date { year := 2025, month := 1, day := 1 } "31-02-2025" =
      { year := 2025, month := 1, day := 1 } ∧
    parse_date { year := 2025, month := 1, day := 1 } "hello" =
      { year := 2025, month := 1, day := 1 } ∧
    parse_date { year := 2025, month := 1, day := 1 } "5-3-2020" =
      { year := 2020, month := 3, day := 5 } := by
  refine ⟨?_, ?_, ?_, by decide, by decide, by decide, by decide⟩
  · intro today s
    unfold parse_date
    split
    · split
      · split
        · rename_i y m d _ h
          exact Or.inr h
        · exact Or.inl rfl
      · exact Or.inl rfl
    · exact Or.inl rfl
  · intro today s hlen
    unfold parse_date
    split
    · rename_i heq
      exact absurd (by rw [heq]; rfl) hlen
    · rfl
  · intro today s p1 p2 p3 heq
    constructor
    · intro y m d hy hm hd
      unfold parse_date
      rw [heq]
      simp only
      rw [hy, hm, hd]
    · intro hnone
      unfold parse_date
      rw [heq]
      simp only
      cases h3 : pyInt p3 with
      | none => rfl
      | some y =>
        cases h2 : pyInt p2 with
        | none => rfl
        | some m =>
          cases h1 : pyInt p1 with
          | none => rfl
          | some d =>
            rcases hnone with h | h | h
            · rw [h1] at h; cases h
            · rw [h2] at h; cases h
            · rw [h3] at h; cases h

/-- Witness for C9 as amended: the three-way split of 5-3-2020 parses
through Python int to the valid date 2020-03-05. -/
theorem C9_amended_parse_date_witness :
    parse_date { year := 2025, month := 1, day := 1 } "5-3-2020" =
      (if validDate 2020 3 5 then { year := 2020, month := 3, day := 5 }
       else { year := 2025, month := 1, day := 1 }) :=
  ((C9_amended_parse_date.2.2.1 { year := 2025, month := 1, day := 1 }
      "5-3-2020" "5" "3" "2020" (by decide)).1 2020 3 5
    (by decide) (by decide) (by decide))

end BankStatement
